import Mathlib

/-!
Shallow embedding of the FoodieBot restaurant-recommendation front-end
(React/TypeScript) for verification.

The embedding mirrors:
* `src/components/ChatInterface.tsx` — `sendMessage`, `endChat`,
  `loadChatSession`, `saveChatToFirebase`, and the debounce effect;
* `src/services/authService.ts` — `register`, `login`, `logout`,
  `saveChatSession`, `updateChatSession`, `saveUserFeedback`;
* `src/components/RestaurantCard.tsx` — `handleFeedbackSubmit`,
  `handleFeedbackCancel`;
* `src/components/UserAuthentication.tsx` — `validateForm`;
* the root `App` component — `handleLogout`.

Asynchronous handlers are modelled as state machines whose atomic steps are
the code between `await`/timer suspension points; external services
(the chat HTTP API, the Firebase auth/database backend, localStorage) are
modelled as explicit stores threaded through the handlers, with Boolean
environment flags deciding whether each external call succeeds or throws.
-/

namespace Foodie

/-- JavaScript `String.prototype.trim()`: drop leading and trailing
whitespace.  Defined over the character list so that it reduces by structural
recursion (Lean's own `String.trim` is defined by well-founded recursion on
byte positions and does not evaluate inside `decide`). -/
def jsTrim (s : String) : String :=
  ⟨((s.data.dropWhile Char.isWhitespace).reverse.dropWhile
      Char.isWhitespace).reverse⟩

/-- Message sender, user or bot, as in `App.tsx`. -/
inductive Sender where
  | user : Sender
  | bot : Sender
deriving DecidableEq, Repr

/-- Structure `ChatMessage` from `App.tsx` / `authService.ts` (restaurants payload kept
as a list of restaurant ids; its contents are irrelevant to the claims). -/
structure ChatMessage where
  id : String
  content : String
  sender : Sender
deriving DecidableEq, Repr

/-! ## Chat Transcript Controller (`ChatInterface.tsx`)

`sendMessage` is an async handler; its suspension points are the
`await axios.post(...)` and the `setTimeout(..., 1000)` pacing timer.
The local component state is the `useState` hooks of `ChatInterface`.
`inflight` records a POST `/api/chat` request that has been issued but whose
`await` has not yet resumed (at most one, guarded by `isLoading`);
`pendingBots` records bot messages whose pacing timers are scheduled but have
not yet fired, in scheduling order.  `requestsSent` counts issued HTTP chat
requests so that "no request is issued" is a statement about the state. -/
structure ChatState where
  messages : List ChatMessage
  inputMessage : String
  isLoading : Bool
  isTyping : Bool
  isChatEnded : Bool
  inflight : Option String
  pendingBots : List ChatMessage
  requestsSent : Nat
deriving DecidableEq, Repr

/-- Initial `ChatInterface` component state (the `useState` initialisers). -/
def chatInit : ChatState :=
  { messages := [], inputMessage := "", isLoading := false, isTyping := false,
    isChatEnded := false, inflight := none, pendingBots := [], requestsSent := 0 }

/-- Events of the chat controller: typing into the input box, invoking
`sendMessage` (its synchronous prefix up to the `await`), the POST `/api/chat`
resolving successfully with the server's user-echo and bot messages, the POST
rejecting, and a scheduled pacing timer firing. -/
inductive ChatEvent where
  | setInput (text : String)
  | send
  | resolveOk (userMsg botMsg : ChatMessage)
  | resolveErr
  | fireTimer
deriving DecidableEq, Repr

/-- One atomic step of `ChatInterface`.

* `setInput` is the input `onChange` handler.
* `send` is `sendMessage` up to its first `await`: the guard
  `if (!inputMessage.trim() || isLoading || isChatEnded) return;` and then
  clearing the input, `setIsLoading(true)`, `setIsTyping(true)` and issuing
  the POST.
* `resolveOk` is the continuation after `await axios.post` succeeds:
  `setMessages(prev => [...prev, user_message])`, scheduling the 1000 ms
  pacing timer for `bot_message`, and the `finally { setIsLoading(false) }`.
* `resolveErr` is the `catch`/`finally` path: `setIsTyping(false)`,
  `setIsLoading(false)`.
* `fireTimer` is the pacing-timer callback:
  `setMessages(prev => [...prev, bot_message])`, `setIsTyping(false)`. -/
def chatStep (s : ChatState) (e : ChatEvent) : ChatState :=
  match e with
  | .setInput t => { s with inputMessage := t }
  | .send =>
      if jsTrim s.inputMessage = "" || s.isLoading || s.isChatEnded then s
      else
        { s with inputMessage := "", isLoading := true, isTyping := true,
                 inflight := some (jsTrim s.inputMessage),
                 requestsSent := s.requestsSent + 1 }
  | .resolveOk userMsg botMsg =>
      match s.inflight with
      | none => s
      | some _ =>
          { s with messages := s.messages ++ [userMsg],
                   pendingBots := s.pendingBots ++ [botMsg],
                   isLoading := false, inflight := none }
  | .resolveErr =>
      match s.inflight with
      | none => s
      | some _ =>
          { s with isTyping := false, isLoading := false, inflight := none }
  | .fireTimer =>
      match s.pendingBots with
      | [] => s
      | b :: rest =>
          { s with messages := s.messages ++ [b], isTyping := false,
                   pendingBots := rest }

/-- Run a list of chat events from a state. -/
def chatRun (s : ChatState) (es : List ChatEvent) : ChatState :=
  es.foldl chatStep s

-- Concrete messages used for counterexample traces.
def uA : ChatMessage := { id := "u1", content := "first", sender := .user }
def bA : ChatMessage := { id := "b1", content := "reply one", sender := .bot }
def uB : ChatMessage := { id := "u2", content := "second", sender := .user }
def bB : ChatMessage := { id := "b2", content := "reply two", sender := .bot }

/-- Trace reaching the middle of a send: the first send's user echo is shown
and its pacing timer is scheduled, the bot message not yet displayed. -/
def traceMid : List ChatEvent :=
  [.setInput "first", .send, .resolveOk uA bA, .setInput "second"]

/-- Full interleaving trace: a second send is issued and resolves while the
first send's pacing timer is still pending. -/
def traceInterleaved : List ChatEvent :=
  traceMid ++ [.send, .resolveOk uB bB, .fireTimer, .fireTimer]

/-! ## `endChat` and `loadChatSession` (`ChatInterface.tsx`)

`endChat` POSTs `/api/end-chat/{sessionId}`, sets `isChatEnded` to true,
mirrors the ended status to Firebase via `updateChatSession`, and reloads the
transcript with `loadChatSession`.  The whole body is wrapped in
`try { ... } catch (error) { console.error(...) }`, and `loadChatSession`
has its own `try`/`catch`, so no failure escapes the handler. -/

/-- Environment for one `endChat` invocation: whether each external call
succeeds, and the transcript and active flag the chat backend reports when
`loadChatSession` re-fetches the session. -/
structure EndEnv where
  endChatOk : Bool
  updateOk : Bool
  loadOk : Bool
  serverMessages : List ChatMessage
  serverActive : Bool
deriving DecidableEq, Repr

/-- Function `loadChatSession`: GET the session from the chat API, then
`setMessages(response.data.messages)` and
`setIsChatEnded(!response.data.is_active)`.  The transcript is replaced
wholesale, never appended to.  A failed GET is caught inside the function
(logged) and leaves the component state unchanged. -/
def loadChatSession (s : ChatState) (env : EndEnv) : ChatState :=
  if env.loadOk then
    { s with messages := env.serverMessages,
             isChatEnded := !env.serverActive }
  else s

/-- The `try` body of `endChat`, with the state as mutated up to the point of
a throw returned alongside the error (the `catch` keeps those mutations):
`await axios.post(end-chat)`, `setIsChatEnded(true)`,
`await authService.updateChatSession(...)`, `loadChatSession()`. -/
def endChatBody (s : ChatState) (env : EndEnv) : ChatState × Option String :=
  if env.endChatOk = false then (s, some "end-chat request failed")
  else
    let s1 := { s with isChatEnded := true }
    if env.updateOk = false then (s1, some "updateChatSession failed")
    else (loadChatSession s1 env, none)

/-- Handler `endChat` as observed by callers: the surrounding `try`/`catch` swallows
every error (logging it), so the handler always returns normally with the
state reached so far. -/
def endChat (s : ChatState) (env : EndEnv) : Except String ChatState :=
  Except.ok (endChatBody s env).1

/-! ## Persistence Shadow (`saveChatToFirebase`, `authService` session CRUD)

Firestore's `chatSessions` collection is modelled as an association list of
documents keyed by id, plus a counter for the fresh auto-ids `addDoc`
generates.  Whether an external call succeeds is an explicit Boolean. -/

/-- The snapshot `saveChatToFirebase` builds from the component state (the
fields relevant to the claims; timestamps and the profile snapshot ride
along unchanged and are omitted). -/
structure SessionDoc where
  userId : String
  messages : List ChatMessage
  isActive : Bool
deriving DecidableEq, Repr

/-- Firestore `chatSessions` collection. -/
structure SessionStore where
  docs : List (String × SessionDoc)
  nextAutoId : Nat
deriving DecidableEq, Repr

/-- Lookup (`getDoc`) of the chat-session document with key `k`. -/
def SessionStore.get? (st : SessionStore) (k : String) : Option SessionDoc :=
  (st.docs.find? (fun kv => kv.1 = k)).map (fun kv => kv.2)

/-- Service call `authService.updateChatSession`: `getDoc` the target; if it does not
exist, `setDoc` creates it, otherwise `updateDoc` overwrites it with the
updates.  `callOk = false` models the call throwing (network/permission
failure), which the service re-throws as `new Error(error.message)`. -/
def updateChatSession (st : SessionStore) (sessionId : String)
    (updates : SessionDoc) (callOk : Bool) : Except String SessionStore :=
  if callOk = false then Except.error "updateChatSession failed"
  else
    match st.get? sessionId with
    | none => Except.ok { st with docs := st.docs ++ [(sessionId, updates)] }
    | some _ =>
        let replaced :=
          st.docs.map (fun kv =>
            if kv.1 = sessionId then (sessionId, updates) else kv)
        Except.ok { st with docs := replaced }

/-- Service call `authService.saveChatSession`: `addDoc` under a fresh auto-generated id,
returning the new id. -/
def saveChatSession (st : SessionStore) (d : SessionDoc) (callOk : Bool) :
    Except String (String × SessionStore) :=
  if callOk = false then Except.error "saveChatSession failed"
  else
    let newId := "auto-" ++ toString st.nextAutoId
    Except.ok (newId,
      { st with docs := st.docs ++ [(newId, d)],
                nextAutoId := st.nextAutoId + 1 })

/-- The `catch` block of `saveChatToFirebase` builds
`const newSessionData = { ...chatSession, userId: userData.uid }` — but
`chatSession` is a `const` declared inside the `try` block and is not in
scope in the `catch`; evaluating the object literal therefore throws a
`ReferenceError` before `authService.saveChatSession` can be invoked. -/
def fallbackNewSessionData : Except String SessionDoc :=
  Except.error "ReferenceError: chatSession is not defined"

/-- Handler `saveChatToFirebase`: skip when `userData` or `sessionId` is missing,
otherwise upsert the snapshot via `updateChatSession`; on failure, the
`catch` attempts the fallback save, whose own failure is caught by the inner
`catch` (logged only). -/
def saveChatToFirebase (hasUserData : Bool) (sessionId : String)
    (snapshot : SessionDoc) (st : SessionStore)
    (updateOk fallbackOk : Bool) : SessionStore :=
  if hasUserData = false || sessionId = "" then st
  else
    match updateChatSession st sessionId snapshot updateOk with
    | Except.ok st' => st'
    | Except.error _ =>
        match fallbackNewSessionData.bind
            (fun d => (saveChatSession st d fallbackOk).map (fun r => r.2)) with
        | Except.ok st' => st'
        | Except.error _ => st

/-! ## The debounce effect (`ChatInterface.tsx`, lines 38–47)

`useEffect(() => { if (messages.length > 0 && userData) { const timeoutId =
setTimeout(saveChatToFirebase, 1000); return () => clearTimeout(timeoutId); }
}, [messages, userData, sessionId])`.

Each transcript change first runs the cleanup of the previous effect
(cancelling the pending timer if it has not fired yet) and then schedules a
fresh 1000 ms timer capturing the new snapshot.  The model processes the
changes in time order, emits a write whenever a pending timer's fire time
has passed before the next change, and finally flushes the pending timer
once the sequence goes idle. -/

/-- One effect run at time `t` for snapshot `snap`, given the previously
pending timer `p` (fire time and captured snapshot): the writes emitted by a
timer that already fired, and the new pending timer. -/
def debounceStep (hasUserData : Bool) (p : Option (Nat × SessionDoc))
    (t : Nat) (snap : SessionDoc) :
    Option (Nat × SessionDoc) × List SessionDoc :=
  let fired : List SessionDoc :=
    match p with
    | some (tf, d) => if tf ≤ t then [d] else []
    | none => []
  let scheduled : Option (Nat × SessionDoc) :=
    if 0 < snap.messages.length ∧ hasUserData = true then some (t + 1000, snap)
    else none
  (scheduled, fired)

/-- Process a time-ordered list of transcript changes, flushing the pending
timer when the sequence goes idle. -/
def debounceRunAux (hasUserData : Bool) :
    Option (Nat × SessionDoc) → List (Nat × SessionDoc) → List SessionDoc
  | some (_, d), [] => [d]
  | none, [] => []
  | p, (t, snap) :: rest =>
      let step := debounceStep hasUserData p t snap
      step.2 ++ debounceRunAux hasUserData step.1 rest

/-- All writes produced by a change sequence starting with no pending timer. -/
def debounceRun (hasUserData : Bool) (changes : List (Nat × SessionDoc)) :
    List SessionDoc :=
  debounceRunAux hasUserData none changes

/-- Every change arrives strictly before the 1000 ms timer of the preceding
change fires: the whole sequence lies within one idle window. -/
def withinWindow : Nat → List (Nat × SessionDoc) → Bool
  | _, [] => true
  | tPrev, (t, _) :: rest => decide (t < tPrev + 1000) && withinWindow t rest

/-- The snapshot of the last change (default `d` when no change follows). -/
def lastSnap : SessionDoc → List (Nat × SessionDoc) → SessionDoc
  | d, [] => d
  | _, (_, s) :: rest => lastSnap s rest

/-! ## Recommendation Presenter (`RestaurantCard.tsx`)

`handleFeedbackSubmit` POSTs `/api/restaurant-preference`, then writes a
`userFeedback` document via `authService.saveUserFeedback`, then updates the
local indicator, closes the modal, and appends a copy to the localStorage
log — all inside one `try`, with a `catch` that only alerts.  The three
external stores are threaded explicitly. -/

/-- Preference polarity: like or dislike. -/
inductive Pref where
  | like : Pref
  | dislike : Pref
deriving DecidableEq, Repr

/-- Local `useState` hooks of `RestaurantCard` relevant to feedback. -/
structure CardState where
  userPreference : Option Pref
  showFeedbackModal : Bool
  feedbackText : String
  pendingPreference : Option Pref
  isSubmittingFeedback : Bool
deriving DecidableEq, Repr

/-- POST `/api/restaurant-preference` payload recorded by the chat backend. -/
structure PrefPost where
  restaurantId : String
  preference : Pref
  sessionId : String
  feedback : Option String
deriving DecidableEq, Repr

/-- Firestore `userFeedback` document (`PreferenceFeedback`). -/
structure FeedbackDoc where
  userId : String
  sessionId : String
  restaurantId : String
  restaurantName : String
  preference : Pref
  feedback : Option String
deriving DecidableEq, Repr

/-- localStorage `restaurantFeedback` entry (its `feedback` field stores the
trimmed text itself, the empty string when none was entered). -/
structure LocalEntry where
  restaurantId : String
  restaurantName : String
  preference : Pref
  feedback : String
deriving DecidableEq, Repr

/-- The three external stores feedback submission writes to. -/
structure FeedbackWorld where
  apiPrefs : List PrefPost
  fbFeedback : List FeedbackDoc
  localFeedback : List LocalEntry
deriving DecidableEq, Repr

/-- Whether each external call of one submission succeeds. -/
structure SubmitEnv where
  apiOk : Bool
  fbOk : Bool
deriving DecidableEq, Repr

/-- The expression `feedbackText.trim() || null`: the trimmed text, or null
when it is empty. -/
def textOrNull (text : String) : Option String :=
  if jsTrim text = "" then none else some (jsTrim text)

/-- Handler `handleFeedbackSubmit`: guard on authentication and on a pending
preference, POST the preference, write the Firestore feedback document, set
the local indicator, reset the modal, append the localStorage copy; any
throw from the two external calls jumps to the `catch` (alert only), and the
`finally` clears `isSubmittingFeedback`. -/
def handleFeedbackSubmit (uid : Option String)
    (restaurantId restaurantName sessionId : String)
    (s : CardState) (w : FeedbackWorld) (env : SubmitEnv) :
    CardState × FeedbackWorld :=
  match uid with
  | none => (s, w)
  | some u =>
      match s.pendingPreference with
      | none => (s, w)
      | some p =>
          let s1 := { s with isSubmittingFeedback := true }
          if env.apiOk = false then
            ({ s1 with isSubmittingFeedback := false }, w)
          else
            let post : PrefPost :=
              { restaurantId := restaurantId, preference := p,
                sessionId := sessionId, feedback := textOrNull s.feedbackText }
            let w1 := { w with apiPrefs := w.apiPrefs ++ [post] }
            if env.fbOk = false then
              ({ s1 with isSubmittingFeedback := false }, w1)
            else
              let fbDoc : FeedbackDoc :=
                { userId := u, sessionId := sessionId,
                  restaurantId := restaurantId,
                  restaurantName := restaurantName, preference := p,
                  feedback := textOrNull s.feedbackText }
              let w2 := { w1 with fbFeedback := w1.fbFeedback ++ [fbDoc] }
              let entry : LocalEntry :=
                { restaurantId := restaurantId,
                  restaurantName := restaurantName, preference := p,
                  feedback := jsTrim s.feedbackText }
              let w3 := { w2 with localFeedback := w2.localFeedback ++ [entry] }
              let s2 :=
                { s1 with userPreference := some p, showFeedbackModal := false,
                          feedbackText := "", pendingPreference := none,
                          isSubmittingFeedback := false }
              (s2, w3)

/-- Handler `handleFeedbackCancel`, invoked by the Skip button of the
feedback modal:
close the modal, clear the entered text and the pending preference.  It makes
no external call. -/
def handleFeedbackCancel (s : CardState) (w : FeedbackWorld) :
    CardState × FeedbackWorld :=
  ({ s with showFeedbackModal := false, feedbackText := "",
            pendingPreference := none }, w)

/-! ## Session/Auth Gate (`authService.ts`, `UserAuthentication.tsx`, `App`)

The Firebase auth backend is an association list from email to
(password, uid); the Firestore `users` collection is an association list
from uid to the stored `UserData`.  `createUserWithEmailAndPassword`
generates a fresh uid. -/

/-- Structure `UserData` from `authService.ts`. -/
structure UserData where
  uid : String
  email : String
  name : String
  age : Nat
  defaultLocation : String
  currentLocation : String
  createdAt : String
deriving DecidableEq, Repr

/-- The external auth/database backend state. -/
structure AuthDB where
  accounts : List (String × String × String)
  users : List (String × UserData)
  nextUid : Nat
deriving DecidableEq, Repr

/-- Whether an account with this email already exists
(`createUserWithEmailAndPassword` rejects duplicates). -/
def AuthDB.emailTaken (db : AuthDB) (email : String) : Bool :=
  db.accounts.any (fun a => a.1 = email)

/-- Lookup (`getDoc`) of the user document stored under `uid`. -/
def AuthDB.getUserDoc (db : AuthDB) (uid : String) : Option UserData :=
  (db.users.find? (fun kv => kv.1 = uid)).map (fun kv => kv.2)

/-- Service call `authService.register`: create the credential (rejecting a taken email),
build the `UserData` record with both location fields set to the submitted
default location, and `setDoc` it under the fresh uid. -/
def register (db : AuthDB) (email password name : String) (age : Nat)
    (defaultLocation : String) (now : String) :
    Except String (UserData × AuthDB) :=
  if db.emailTaken email then Except.error "auth/email-already-in-use"
  else
    let uid := "uid-" ++ toString db.nextUid
    let userData : UserData :=
      { uid := uid, email := email, name := name, age := age,
        defaultLocation := defaultLocation,
        currentLocation := defaultLocation, createdAt := now }
    Except.ok (userData,
      { db with accounts := db.accounts ++ [(email, password, uid)],
                users := db.users ++ [(uid, userData)],
                nextUid := db.nextUid + 1 })

/-- Service call `authService.login`: `signInWithEmailAndPassword`, then fetch the stored
Firestore document; a missing document is the error "User data not found". -/
def login (db : AuthDB) (email password : String) : Except String UserData :=
  match db.accounts.find? (fun a => a.1 = email && a.2.1 = password) with
  | none => Except.error "auth/invalid-credential"
  | some a =>
      match db.getUserDoc a.2.2 with
      | none => Except.error "User data not found"
      | some ud => Except.ok ud

/-- The `/\S+@\S+\.\S+/.test(email)` check of `validateForm`: the email
contains a contiguous match x@y.z where x, y, z are non-empty runs of
non-whitespace characters — i.e. there are positions `q < r` holding `'@'`
and `'.'` with a non-whitespace character directly before the `'@'` and
directly after the `'.'`, and only non-whitespace characters between them. -/
def emailRegexTest (email : String) : Bool :=
  let cs := email.data
  let n := cs.length
  (List.range n).any (fun q =>
    (List.range n).any (fun r =>
      decide (1 ≤ q) && decide (q + 2 ≤ r) && decide (r + 1 < n) &&
      decide (cs.getD q ' ' = '@') && decide (cs.getD r ' ' = '.') &&
      !(cs.getD (q - 1) ' ').isWhitespace &&
      !(cs.getD (r + 1) ' ').isWhitespace &&
      (List.range n).all (fun m =>
        !(decide (q < m) && decide (m < r)) ||
          !(cs.getD m ' ').isWhitespace)))

/-- The register branch of `UserAuthentication.validateForm`: non-empty
email matching the regex, non-empty password of at least 6 characters,
non-empty name, and age within [13, 120]. -/
def validateRegisterForm (email password name : String) (age : Nat) : Bool :=
  !(jsTrim email = "" : Bool) && emailRegexTest email &&
  !(jsTrim password = "" : Bool) && decide (6 ≤ password.length) &&
  !(jsTrim name = "" : Bool) && !(decide (age < 13) || decide (120 < age))

/-! ## Root `App` component (`handleLogout`) -/

/-- Type `AppState` in `App`: which screen is shown. -/
inductive AppScreen where
  | loading : AppScreen
  | auth : AppScreen
  | chat : AppScreen
  | history : AppScreen
deriving DecidableEq, Repr

/-- The root component's local identity/session state. -/
structure AppLocalState where
  userData : Option UserData
  userProfile : Option (String × Nat × String)
  sessionId : Option String
  selectedSession : Option String
  appState : AppScreen
deriving DecidableEq, Repr

/-- Handler `handleLogout` in `App`: `await authService.logout()` and then clear
`userData`, `userProfile`, `sessionId`, `selectedSession` and return to the
auth gate.  When `signOut` throws, `authService.logout` re-throws, control
jumps to the `catch` — which only logs — and none of the clearing runs. -/
def handleLogout (s : AppLocalState) (signOutOk : Bool) : AppLocalState :=
  if signOutOk then
    { s with userData := none, userProfile := none, sessionId := none,
             selectedSession := none, appState := .auth }
  else s

end Foodie

namespace Foodie

/-- C5: if the input is empty or whitespace-only, or a send is already in
flight (`isLoading`), or the session has ended, then `sendMessage` returns at
its guard: the component state is unchanged — in particular the transcript
length — and no HTTP request is issued (`requestsSent` is unchanged). -/
theorem sendMessage_noop_on_guard (s : ChatState)
    (h : jsTrim s.inputMessage = "" ∨ s.isLoading = true ∨ s.isChatEnded = true) :
    chatStep s .send = s := by
  unfold chatStep
  rcases h with h | h | h <;> simp [h]

/-- Witness for `sendMessage_noop_on_guard` at a concrete whitespace-only
input. -/
theorem sendMessage_noop_on_guard_witness :
    chatStep { chatInit with inputMessage := "   " } .send
      = { chatInit with inputMessage := "   " } :=
  sendMessage_noop_on_guard _ (Or.inl (by decide))

/-- C1 counterexample: after the first send's POST resolves, the `finally`
block clears `isLoading` while the 1000 ms pacing timer for the bot message
is still pending (`isTyping` is still true and the bot message is still
queued).  A second `sendMessage` issued at that point is accepted, not
rejected, and the resulting transcript is
`[user₁, user₂, bot₁, bot₂]`: the second send's user message sits between
the first send's user and bot messages, so the user/bot pair of one send is
interleaved with the messages of another send. -/
theorem sendMessage_interleaving_counterexample :
    (chatRun chatInit traceMid).isTyping = true ∧
    (chatRun chatInit traceMid).pendingBots = [bA] ∧
    (chatRun chatInit traceMid).isLoading = false ∧
    chatStep (chatRun chatInit traceMid) .send ≠ chatRun chatInit traceMid ∧
    (chatRun chatInit traceInterleaved).messages = [uA, uB, bA, bB] := by
  refine ⟨rfl, rfl, rfl, ?_, rfl⟩
  decide

/-- C1 amended: each accepted send appends exactly one user message when its
POST resolves and exactly one bot message when its pacing timer fires, in that
order; further sends are rejected only while the POST is in flight
(`isLoading`), and `isLoading` is already false once the user echo is
appended, so a send issued during the pacing delay is accepted and can
interleave with the pending bot message. -/
theorem sendMessage_amended (s : ChatState) (u b : ChatMessage)
    (hne : ¬ jsTrim s.inputMessage = "") (hload : s.isLoading = false)
    (hend : s.isChatEnded = false) (hbots : s.pendingBots = []) :
    (∀ s' : ChatState, s'.isLoading = true → chatStep s' .send = s') ∧
    (chatRun s [.send, .resolveOk u b]).messages = s.messages ++ [u] ∧
    (chatRun s [.send, .resolveOk u b]).isLoading = false ∧
    (chatRun s [.send, .resolveOk u b, .fireTimer]).messages
      = s.messages ++ [u, b] := by
  refine ⟨fun s' h => ?_, ?_, ?_, ?_⟩
  · unfold chatStep; simp [h]
  all_goals simp [chatRun, chatStep, hne, hload, hend, hbots]

/-- Witness for `sendMessage_amended` at a concrete state with a non-empty
input. -/
theorem sendMessage_amended_witness :
    (∀ s' : ChatState, s'.isLoading = true → chatStep s' .send = s') ∧
    (chatRun { chatInit with inputMessage := "hello" }
        [.send, .resolveOk uA bA]).messages = [uA] ∧
    (chatRun { chatInit with inputMessage := "hello" }
        [.send, .resolveOk uA bA]).isLoading = false ∧
    (chatRun { chatInit with inputMessage := "hello" }
        [.send, .resolveOk uA bA, .fireTimer]).messages = [uA, bA] :=
  sendMessage_amended { chatInit with inputMessage := "hello" } uA bA
    (by decide) rfl rfl rfl

/-- C7: ending a chat sets the local active flag to ended (given the end-chat
POST succeeds and the server thereafter reports the session inactive), the
handler never throws (every failure is caught and logged), repeating `endChat`
in the same environment is idempotent on the component state, and the
transcript is only ever replaced by the server's copy, never appended to —
so an already-present closing message is not duplicated. -/
theorem endChat_inactive_idempotent (s : ChatState) (env : EndEnv)
    (hpost : env.endChatOk = true) (hsrv : env.serverActive = false) :
    (∀ (t : ChatState) (e : EndEnv), ∃ t', endChat t e = Except.ok t') ∧
    ((endChatBody s env).1).isChatEnded = true ∧
    (∀ (t : ChatState) (e : EndEnv),
      endChatBody (endChatBody t e).1 e = endChatBody t e) ∧
    (((endChatBody s env).1).messages = s.messages ∨
      ((endChatBody s env).1).messages = env.serverMessages) := by
  refine ⟨fun t e => ⟨(endChatBody t e).1, rfl⟩, ?_, ?_, ?_⟩
  · cases hU : env.updateOk <;> cases hL : env.loadOk <;>
      simp [endChatBody, loadChatSession, hpost, hsrv, hU, hL]
  · intro t e
    cases hE : e.endChatOk <;> cases hU : e.updateOk <;> cases hL : e.loadOk <;>
      simp [endChatBody, loadChatSession, hE, hU, hL]
  · cases hU : env.updateOk <;> cases hL : env.loadOk <;>
      simp [endChatBody, loadChatSession, hpost, hsrv, hU, hL]

/-- With a timer already pending at `t0 + 1000` and every subsequent change
arriving within the window, the pending timer never fires: only the snapshot
of the last change survives to be written. -/
theorem debounceRunAux_pending (t0 : Nat) (d0 : SessionDoc)
    (changes : List (Nat × SessionDoc))
    (hall : ∀ c ∈ changes, 0 < (c.2).messages.length)
    (hwin : withinWindow t0 changes = true) :
    debounceRunAux true (some (t0 + 1000, d0)) changes
      = [lastSnap d0 changes] := by
  induction changes generalizing t0 d0 with
  | nil => rfl
  | cons c rest ih =>
      obtain ⟨t, snap⟩ := c
      simp only [withinWindow, Bool.and_eq_true, decide_eq_true_eq] at hwin
      obtain ⟨hlt, hwin'⟩ := hwin
      have hsnap : 0 < snap.messages.length := hall (t, snap) (by simp)
      have hall' : ∀ c ∈ rest, 0 < (c.2).messages.length :=
        fun c hc => hall c (by simp [hc])
      simp [debounceRunAux, debounceStep, Nat.not_le.mpr hlt, hsnap, lastSnap]
      exact ih t snap hall' hwin'

/-- C8: the debounce timer is reset, not stacked, on every transcript
change: for any non-empty sequence of changes all lying within one idle
window (each change arrives before the previous change's 1000 ms timer
fires), exactly one write is issued and it carries the snapshot of the last
change; no intermediate state is ever persisted. -/
theorem debounce_writes_last_only (t1 : Nat) (s1 : SessionDoc)
    (rest : List (Nat × SessionDoc))
    (h1 : 0 < s1.messages.length)
    (hall : ∀ c ∈ rest, 0 < (c.2).messages.length)
    (hwin : withinWindow t1 rest = true) :
    debounceRun true ((t1, s1) :: rest) = [lastSnap s1 rest] := by
  have h := debounceRunAux_pending t1 s1 rest hall hwin
  simpa [debounceRun, debounceRunAux, debounceStep, h1] using h

/-- Witness for `debounce_writes_last_only`: two changes 500 ms apart produce
exactly one write, carrying the second snapshot. -/
theorem debounce_writes_last_only_witness :
    debounceRun true
        [(0, { userId := "u1", messages := [uA], isActive := true }),
         (500, { userId := "u1", messages := [uA, bA], isActive := true })]
      = [{ userId := "u1", messages := [uA, bA], isActive := true }] :=
  debounce_writes_last_only 0
    { userId := "u1", messages := [uA], isActive := true }
    [(500, { userId := "u1", messages := [uA, bA], isActive := true })]
    (by decide) (by decide) (by decide)

/-- A card with a pending like selection and the feedback modal open. -/
def cardPendingLike : CardState :=
  { userPreference := none, showFeedbackModal := true, feedbackText := "",
    pendingPreference := some .like, isSubmittingFeedback := false }

/-- External stores with no feedback recorded yet. -/
def emptyWorld : FeedbackWorld :=
  { apiPrefs := [], fbFeedback := [], localFeedback := [] }

/-- C6: a confirmed like/dislike submission (authenticated, both external
calls succeeding) appends exactly one `userFeedback` record, carrying the
chosen polarity and the entered text trimmed (or null when no text was
entered), posts exactly one preference to the API, and sets the card's local
indicator to that polarity. -/
theorem feedbackSubmit_records_once (u rid rname sid : String)
    (s : CardState) (w : FeedbackWorld) (p : Pref)
    (hp : s.pendingPreference = some p) :
    (handleFeedbackSubmit (some u) rid rname sid s w
        { apiOk := true, fbOk := true }).2.fbFeedback
      = w.fbFeedback ++
        [{ userId := u, sessionId := sid, restaurantId := rid,
           restaurantName := rname, preference := p,
           feedback := textOrNull s.feedbackText }] ∧
    (handleFeedbackSubmit (some u) rid rname sid s w
        { apiOk := true, fbOk := true }).2.apiPrefs
      = w.apiPrefs ++
        [{ restaurantId := rid, preference := p, sessionId := sid,
           feedback := textOrNull s.feedbackText }] ∧
    (handleFeedbackSubmit (some u) rid rname sid s w
        { apiOk := true, fbOk := true }).1.userPreference = some p := by
  refine ⟨?_, ?_, ?_⟩ <;> simp [handleFeedbackSubmit, hp]

/-- Witness for `feedbackSubmit_records_once` at a concrete card with a
pending like and no entered text. -/
theorem feedbackSubmit_records_once_witness :
    (handleFeedbackSubmit (some "u1") "r1" "Pasta Place" "s1" cardPendingLike
        emptyWorld { apiOk := true, fbOk := true }).2.fbFeedback
      = [{ userId := "u1", sessionId := "s1", restaurantId := "r1",
           restaurantName := "Pasta Place", preference := .like,
           feedback := none }] ∧
    (handleFeedbackSubmit (some "u1") "r1" "Pasta Place" "s1" cardPendingLike
        emptyWorld { apiOk := true, fbOk := true }).2.apiPrefs
      = [{ restaurantId := "r1", preference := .like, sessionId := "s1",
           feedback := none }] ∧
    (handleFeedbackSubmit (some "u1") "r1" "Pasta Place" "s1" cardPendingLike
        emptyWorld { apiOk := true, fbOk := true }).1.userPreference
      = some .like :=
  feedbackSubmit_records_once "u1" "r1" "Pasta Place" "s1" cardPendingLike
    emptyWorld .like rfl

/-- C10: feedback submission is atomic with respect to local state: if the
preference API post or the Firestore feedback write throws, the card's
preference indicator, the modal flag, the entered text, the pending
selection, the Firestore feedback collection, and the localStorage log are
all left unchanged; they are updated only on the all-success path. -/
theorem feedbackSubmit_atomic (u rid rname sid : String)
    (s : CardState) (w : FeedbackWorld) (env : SubmitEnv)
    (hfail : env.apiOk = false ∨ env.fbOk = false) :
    (handleFeedbackSubmit (some u) rid rname sid s w env).1.userPreference
      = s.userPreference ∧
    (handleFeedbackSubmit (some u) rid rname sid s w env).1.showFeedbackModal
      = s.showFeedbackModal ∧
    (handleFeedbackSubmit (some u) rid rname sid s w env).1.feedbackText
      = s.feedbackText ∧
    (handleFeedbackSubmit (some u) rid rname sid s w env).1.pendingPreference
      = s.pendingPreference ∧
    (handleFeedbackSubmit (some u) rid rname sid s w env).2.fbFeedback
      = w.fbFeedback ∧
    (handleFeedbackSubmit (some u) rid rname sid s w env).2.localFeedback
      = w.localFeedback := by
  cases hp : s.pendingPreference with
  | none => simp [handleFeedbackSubmit, hp]
  | some p =>
      rcases hfail with h | h
      · simp [handleFeedbackSubmit, hp, h]
      · cases ha : env.apiOk <;> simp [handleFeedbackSubmit, hp, h, ha]

/-- Witness for `feedbackSubmit_atomic`: the Firestore write fails on a card
with a pending like and entered text, and everything local is preserved. -/
theorem feedbackSubmit_atomic_witness :
    (handleFeedbackSubmit (some "u1") "r1" "Pasta Place" "s1"
        { cardPendingLike with feedbackText := "too salty" } emptyWorld
        { apiOk := true, fbOk := false }).1.userPreference
      = { cardPendingLike with feedbackText := "too salty" }.userPreference ∧
    (handleFeedbackSubmit (some "u1") "r1" "Pasta Place" "s1"
        { cardPendingLike with feedbackText := "too salty" } emptyWorld
        { apiOk := true, fbOk := false }).1.showFeedbackModal
      = { cardPendingLike with feedbackText := "too salty" }.showFeedbackModal ∧
    (handleFeedbackSubmit (some "u1") "r1" "Pasta Place" "s1"
        { cardPendingLike with feedbackText := "too salty" } emptyWorld
        { apiOk := true, fbOk := false }).1.feedbackText
      = { cardPendingLike with feedbackText := "too salty" }.feedbackText ∧
    (handleFeedbackSubmit (some "u1") "r1" "Pasta Place" "s1"
        { cardPendingLike with feedbackText := "too salty" } emptyWorld
        { apiOk := true, fbOk := false }).1.pendingPreference
      = { cardPendingLike with feedbackText := "too salty" }.pendingPreference ∧
    (handleFeedbackSubmit (some "u1") "r1" "Pasta Place" "s1"
        { cardPendingLike with feedbackText := "too salty" } emptyWorld
        { apiOk := true, fbOk := false }).2.fbFeedback
      = emptyWorld.fbFeedback ∧
    (handleFeedbackSubmit (some "u1") "r1" "Pasta Place" "s1"
        { cardPendingLike with feedbackText := "too salty" } emptyWorld
        { apiOk := true, fbOk := false }).2.localFeedback
      = emptyWorld.localFeedback :=
  feedbackSubmit_atomic "u1" "r1" "Pasta Place" "s1"
    { cardPendingLike with feedbackText := "too salty" } emptyWorld
    { apiOk := true, fbOk := false } (Or.inr rfl)

/-- C3 counterexample: with a pending like selection, choosing Skip (which
invokes `handleFeedbackCancel`) records nothing at all: the preference API
store, the Firestore feedback collection, and the localStorage log are
unchanged, and even the local indicator stays unset — the bare preference is
not recorded to the external services. -/
theorem skip_records_nothing_counterexample :
    (handleFeedbackCancel cardPendingLike emptyWorld).2 = emptyWorld ∧
    (handleFeedbackCancel cardPendingLike emptyWorld).2.apiPrefs = [] ∧
    (handleFeedbackCancel cardPendingLike emptyWorld).2.fbFeedback = [] ∧
    (handleFeedbackCancel cardPendingLike emptyWorld).1.userPreference
      = none ∧
    (handleFeedbackCancel cardPendingLike emptyWorld).1.pendingPreference
      = none :=
  ⟨rfl, rfl, rfl, rfl, rfl⟩

/-- C3 amended: choosing Skip closes the feedback prompt and discards the
pending selection and entered text without recording anything to any
external service; a bare preference (feedback null) is recorded only when
Submit is confirmed with no entered text. -/
theorem skip_amended (s : CardState) (w : FeedbackWorld)
    (u rid rname sid : String) (p : Pref)
    (hp : s.pendingPreference = some p)
    (htext : jsTrim s.feedbackText = "") :
    (handleFeedbackCancel s w).2 = w ∧
    (handleFeedbackCancel s w).1.showFeedbackModal = false ∧
    (handleFeedbackCancel s w).1.pendingPreference = none ∧
    (handleFeedbackCancel s w).1.userPreference = s.userPreference ∧
    (handleFeedbackSubmit (some u) rid rname sid s w
        { apiOk := true, fbOk := true }).2.fbFeedback
      = w.fbFeedback ++
        [{ userId := u, sessionId := sid, restaurantId := rid,
           restaurantName := rname, preference := p, feedback := none }] := by
  refine ⟨rfl, rfl, rfl, rfl, ?_⟩
  simp [handleFeedbackSubmit, hp, textOrNull, htext]

/-- Witness for `skip_amended` at a concrete card with a pending like. -/
theorem skip_amended_witness :
    (handleFeedbackCancel cardPendingLike emptyWorld).2 = emptyWorld ∧
    (handleFeedbackCancel cardPendingLike emptyWorld).1.showFeedbackModal
      = false ∧
    (handleFeedbackCancel cardPendingLike emptyWorld).1.pendingPreference
      = none ∧
    (handleFeedbackCancel cardPendingLike emptyWorld).1.userPreference
      = cardPendingLike.userPreference ∧
    (handleFeedbackSubmit (some "u1") "r1" "Pasta Place" "s1" cardPendingLike
        emptyWorld { apiOk := true, fbOk := true }).2.fbFeedback
      = emptyWorld.fbFeedback ++
        [{ userId := "u1", sessionId := "s1", restaurantId := "r1",
           restaurantName := "Pasta Place", preference := .like,
           feedback := none }] :=
  skip_amended cardPendingLike emptyWorld "u1" "r1" "Pasta Place" "s1" .like
    rfl (by decide)

/-- C4: for valid registration inputs (the register branch of `validateForm`
accepts them, so in particular age lies in [13, 120]) with an email no
account holds yet and the backend's fresh uid unused, registration followed
by login with the same credentials succeeds and yields the stored
`UserData`, whose name and age match the registered values and whose
default and current locations both equal the submitted location. -/
theorem register_then_login (db : AuthDB) (email password name : String)
    (age : Nat) (loc now : String)
    (hvalid : validateRegisterForm email password name age = true)
    (hfresh : db.emailTaken email = false)
    (huid : db.getUserDoc ("uid-" ++ toString db.nextUid) = none) :
    ∃ ud db',
      register db email password name age loc now = Except.ok (ud, db') ∧
      login db' email password = Except.ok ud ∧
      ud.name = name ∧ ud.age = age ∧
      ud.defaultLocation = loc ∧ ud.currentLocation = loc := by
  refine ⟨{ uid := "uid-" ++ toString db.nextUid, email := email,
            name := name, age := age, defaultLocation := loc,
            currentLocation := loc, createdAt := now },
          { accounts :=
              db.accounts ++ [(email, password, "uid-" ++ toString db.nextUid)],
            users := db.users ++ [("uid-" ++ toString db.nextUid,
              { uid := "uid-" ++ toString db.nextUid, email := email,
                name := name, age := age, defaultLocation := loc,
                currentLocation := loc, createdAt := now })],
            nextUid := db.nextUid + 1 },
          ?_, ?_, rfl, rfl, rfl, rfl⟩
  · simp [register, hfresh]
  · have hacc : db.accounts.find?
        (fun a => a.1 = email && a.2.1 = password) = none := by
      rw [List.find?_eq_none]
      intro x hx hpx
      rw [AuthDB.emailTaken, List.any_eq_false] at hfresh
      have hx' := hfresh x hx
      simp only [Bool.and_eq_true, decide_eq_true_eq] at hpx
      exact hx' (by simp [hpx.1])
    have husers : db.users.find?
        (fun kv => kv.1 = "uid-" ++ toString db.nextUid) = none := by
      rw [AuthDB.getUserDoc] at huid
      cases h : db.users.find?
          (fun kv => kv.1 = "uid-" ++ toString db.nextUid) with
      | none => rfl
      | some kv => rw [h] at huid; simp at huid
    simp [login, AuthDB.getUserDoc, List.find?_append, hacc, husers]

/-- Witness for `register_then_login`: a concrete registration on an empty
backend followed by login with the same credentials. -/
theorem register_then_login_witness :
    ∃ ud db',
      register { accounts := [], users := [], nextUid := 0 }
          "ana@example.com" "secret1" "Ana" 30 "Lisbon, PT" "t0"
        = Except.ok (ud, db') ∧
      login db' "ana@example.com" "secret1" = Except.ok ud ∧
      ud.name = "Ana" ∧ ud.age = 30 ∧
      ud.defaultLocation = "Lisbon, PT" ∧ ud.currentLocation = "Lisbon, PT" :=
  register_then_login { accounts := [], users := [], nextUid := 0 }
    "ana@example.com" "secret1" "Ana" 30 "Lisbon, PT" "t0"
    (by decide) rfl rfl

/-- A concrete logged-in root-component state. -/
def loggedInApp : AppLocalState :=
  { userData := some
      { uid := "u1", email := "ana@example.com", name := "Ana", age := 30,
        defaultLocation := "Lisbon, PT", currentLocation := "Lisbon, PT",
        createdAt := "t0" },
    userProfile := some ("Ana", 30, "Lisbon, PT"),
    sessionId := some "s1", selectedSession := none, appState := .chat }

/-- C9 counterexample: when the external sign-out call throws,
`handleLogout` reaches its `catch` (which only logs) before any of the
clearing statements run: at a concrete logged-in state nothing is cleared
and the application does not return to the auth gate — the clearing is not
unconditional. -/
theorem handleLogout_not_unconditional_counterexample :
    handleLogout loggedInApp false = loggedInApp ∧
    (handleLogout loggedInApp false).userData ≠ none ∧
    (handleLogout loggedInApp false).sessionId ≠ none ∧
    (handleLogout loggedInApp false).appState ≠ .auth :=
  ⟨rfl, by decide, by decide, by decide⟩

/-- C9 amended: when the external sign-out call succeeds, `handleLogout`
clears all local identity and session state (user data, user profile,
session id, selected session) and returns to the auth gate; when the call
throws, the error is only logged and every piece of local state is left
unchanged. -/
theorem handleLogout_amended (s : AppLocalState) :
    (handleLogout s true).userData = none ∧
    (handleLogout s true).userProfile = none ∧
    (handleLogout s true).sessionId = none ∧
    (handleLogout s true).selectedSession = none ∧
    (handleLogout s true).appState = .auth ∧
    handleLogout s false = s :=
  ⟨rfl, rfl, rfl, rfl, rfl, rfl⟩

/-- A concrete transcript snapshot used to exercise the Persistence Shadow. -/
def sessionSnapshotA : SessionDoc :=
  { userId := "u1", messages := [uA, bA], isActive := true }

/-- C2: the first half of the claim holds — `updateChatSession` creates the
record when the upsert target does not exist — but the second half fails on
the code: when the update call throws, the `catch` block's object literal
spreads `chatSession`, a `const` scoped to the `try` block, so the fallback
throws a `ReferenceError` before `saveChatSession` is invoked and no
brand-new record is ever created.  Evaluated here at a concrete failing
input: with the update call throwing (and the fallback write itself able to
succeed), the store is left unchanged — no fallback record appears. -/
theorem saveChatToFirebase_fallback_unreachable :
    updateChatSession { docs := [], nextAutoId := 0 } "sess-1" sessionSnapshotA
        true
      = Except.ok { docs := [("sess-1", sessionSnapshotA)], nextAutoId := 0 } ∧
    saveChatToFirebase true "sess-1" sessionSnapshotA
        { docs := [], nextAutoId := 0 } false true
      = { docs := [], nextAutoId := 0 } ∧
    fallbackNewSessionData.bind
        (fun d => (saveChatSession { docs := [], nextAutoId := 0 } d true).map
          (fun r => r.2))
      = Except.error "ReferenceError: chatSession is not defined" :=
  ⟨rfl, rfl, rfl⟩

/-- Witness for `endChat_inactive_idempotent` at a concrete ended session. -/
theorem endChat_inactive_idempotent_witness :
    (∀ (t : ChatState) (e : EndEnv), ∃ t', endChat t e = Except.ok t') ∧
    ((endChatBody chatInit
        { endChatOk := true, updateOk := true, loadOk := true,
          serverMessages := [uA, bA], serverActive := false }).1).isChatEnded
      = true ∧
    (∀ (t : ChatState) (e : EndEnv),
      endChatBody (endChatBody t e).1 e = endChatBody t e) ∧
    (((endChatBody chatInit
        { endChatOk := true, updateOk := true, loadOk := true,
          serverMessages := [uA, bA], serverActive := false }).1).messages
        = chatInit.messages ∨
      ((endChatBody chatInit
        { endChatOk := true, updateOk := true, loadOk := true,
          serverMessages := [uA, bA], serverActive := false }).1).messages
        = [uA, bA]) :=
  endChat_inactive_idempotent chatInit
    { endChatOk := true, updateOk := true, loadOk := true,
      serverMessages := [uA, bA], serverActive := false } rfl rfl

end Foodie
